import Mathlib

/-!
Verification of the eva-agent process-supervision and health-gated
backup/restore subsystem.  The definitions below are a shallow embedding of
the TypeScript worker code (`src/gateway/sync.ts`, the admin API routes) and
the container startup script (`start-openclaw.sh`).  Shell commands issued
through the sandbox are modelled by abstract command/step datatypes together
with the file-system facts they consult, and each exported operation is
translated as a pure function from a modelled world to its structured result
plus the trace of commands it issues.
-/

namespace EvaAgent

/-- Substring test on character lists: `pat` occurs contiguously in the
second list. -/
def hasInfixChars (pat : List Char) : List Char → Bool
  | [] => pat.isEmpty
  | c :: rest => pat.isPrefixOf (c :: rest) || hasInfixChars pat rest

/-- Substring containment on strings, modelling JavaScript
`String.prototype.includes` and `grep` fixed-string matching. -/
def strContains (s pat : String) : Bool :=
  hasInfixChars pat.data s.data

/-- Byte size of a string, modelling `wc -c` on a file holding exactly this
content (UTF-8 encoded). -/
def byteSize (s : String) : Nat :=
  s.data.foldl (fun n c => n + c.utf8Size) 0

/-- Truthiness of an optional environment string, modelling a JavaScript
`env.X` check: `undefined` and the empty string are falsy. -/
def present : Option String → Bool
  | none => false
  | some s => !(s == "")

/-- Split a character list into its newline-separated lines. -/
def splitLines : List Char → List (List Char)
  | [] => [[]]
  | c :: rest =>
      let r := splitLines rest
      if c = '\n' then [] :: r
      else
        match r with
        | [] => [[c]]
        | l :: ls => (c :: l) :: ls

/-- Whether some line of the content starts with a heading marker,
modelling `grep -q "^# " file` in `isSourceHealthy`. -/
def hasHeadingMarker (content : String) : Bool :=
  (splitLines content.data).any (fun line => ['#', ' '].isPrefixOf line)

/-- Classification emitted by the identity-document check of
`isSourceHealthy` (sync.ts): the shell snippet echoes `missing` when
`IDENTITY.md` is absent, `empty` when it has size zero, `healthy` when it
contains a heading line and exceeds 100 bytes, and `minimal` otherwise. -/
inductive IdentityStatus
  | missing
  | empty
  | minimal
  | healthy
  deriving DecidableEq, Repr

/-- Identity-document classification as a function of the file's content
(`none` when `/root/.openclaw/workspace/skills/IDENTITY.md` is absent),
translated from the shell snippet in `isSourceHealthy` (sync.ts). -/
def identityStatus : Option String → IdentityStatus
  | none => .missing
  | some c =>
      if byteSize c = 0 then .empty
      else if hasHeadingMarker c && decide (byteSize c > 100) then .healthy
      else .minimal

/-- Local source state consulted by the health gate: whether the current or
legacy config file exists, and the identity-document content (if any). -/
structure SourceState where
  hasOpenclawJson : Bool
  hasClawdbotJson : Bool
  identity : Option String
  deriving Repr

/-- Result of the health gate, `{ healthy, reason? }` in sync.ts. -/
structure HealthResult where
  healthy : Bool
  reason : Option String
  deriving DecidableEq, Repr

/-- Health gate `isSourceHealthy` (sync.ts): requires the config file
(current `openclaw.json` or legacy `clawdbot.json`) to exist, then
classifies the identity document; any classification other than `healthy`
yields unhealthy with the corresponding reason string. -/
def isSourceHealthy (s : SourceState) : HealthResult :=
  if !(s.hasOpenclawJson || s.hasClawdbotJson) then
    { healthy := false, reason := some "Missing openclaw.json" }
  else
    match identityStatus s.identity with
    | .missing =>
        { healthy := false
          reason := some "IDENTITY.md does not exist - appears to be fresh container" }
    | .empty =>
        { healthy := false
          reason := some "IDENTITY.md is empty - appears to be fresh container" }
    | .minimal =>
        { healthy := false
          reason := some "IDENTITY.md has minimal content - may be fresh/template state" }
    | .healthy => { healthy := true, reason := none }

/-- Mount path for R2 persistent storage inside the container
(`R2_MOUNT_PATH` in config.ts, openclaw era). -/
def R2_MOUNT_PATH : String := "/data/openclaw"

/-- ASCII whitespace recognised by the trim model. -/
def isWhite (c : Char) : Bool :=
  c = ' ' || c = '\t' || c = '\n' || c = '\r'

/-- Trim leading and trailing whitespace from a character list. -/
def trimChars (l : List Char) : List Char :=
  ((l.dropWhile isWhite).reverse.dropWhile isWhite).reverse

/-- String trim, modelling JavaScript `String.prototype.trim()` on the
ASCII content the system produces. -/
def strTrim (s : String) : String :=
  ⟨trimChars s.data⟩

/-- Date-like prefix test on characters: four digits, dash, two digits,
dash, two digits. -/
def dateLikePrefix : List Char → Bool
  | y1 :: y2 :: y3 :: y4 :: d1 :: m1 :: m2 :: d2 :: a1 :: a2 :: _ =>
      y1.isDigit && y2.isDigit && y3.isDigit && y4.isDigit && d1 = '-' &&
      m1.isDigit && m2.isDigit && d2 = '-' && a1.isDigit && a2.isDigit
  | _ => false

/-- The marker-validation pattern of `syncToR2`, modelling the JavaScript
test `lastSync.match(/^\d{4}-\d{2}-\d{2}/)`. -/
def dateLike (s : String) : Bool :=
  dateLikePrefix s.data

/-- R2 credential bindings consulted by the durability operations
(`env.R2_ACCESS_KEY_ID`, `env.R2_SECRET_ACCESS_KEY`, `env.CF_ACCOUNT_ID`). -/
structure R2Credentials where
  r2AccessKeyId : Option String
  r2SecretAccessKey : Option String
  cfAccountId : Option String

/-- Configuration check at the top of every durability operation:
`!env.R2_ACCESS_KEY_ID || !env.R2_SECRET_ACCESS_KEY || !env.CF_ACCOUNT_ID`
fails, i.e. all three bindings must be truthy. -/
def r2Configured (c : R2Credentials) : Bool :=
  present c.r2AccessKeyId && present c.r2SecretAccessKey && present c.cfAccountId

/-- Result record of sync/restore operations (`SyncResult` in sync.ts). -/
structure SyncResult where
  success : Bool
  lastSync : Option String := none
  error : Option String := none
  details : Option String := none
  skippedReason : Option String := none
  deriving DecidableEq, Repr

/-- Commands `syncToR2` can issue through the sandbox, in source order:
the mount of R2 storage, the two health-gate checks, the versioned-backup
copy and its prune, the rsync mirror (which also writes the durable
marker), and the re-read of the marker file. -/
inductive SyncCmd
  | mountStorage
  | configCheck
  | identityCheck
  | versionedBackupCmd
  | pruneBackupsCmd
  | mirrorCmd
  | readMarkerCmd
  deriving DecidableEq, Repr

/-- Modelled sandbox world consulted by `syncToR2`: credentials, the mount
outcome (`mountR2Storage` is modelled opaquely by its boolean result), the
local source state seen by the health gate, whether existing durable data
is present (the guard of the versioned-backup shell branch), whether the
backup copy completed (its `backed_up` echo was observed), the exit code
the mirror process reports, and the content of the durable marker file
when re-read after the mirror (`none` when `cat` produces no output). -/
structure SyncWorld where
  creds : R2Credentials
  mountOk : Bool
  source : SourceState
  existingDurableData : Bool
  backupCopied : Bool
  rsyncExitCode : Option Int
  markerAfterSync : Option String

/-- Commands issued by `isSourceHealthy`: the config-file check always
runs; the identity check runs only when the config check succeeded. -/
def healthCmds (s : SourceState) : List SyncCmd :=
  if s.hasOpenclawJson || s.hasClawdbotJson then
    [.configCheck, .identityCheck]
  else
    [.configCheck]

/-- Commands issued by `createVersionedBackup`: the backup shell command
always runs; the prune command runs only when existing data was present
and the copy echoed `backed_up`. -/
def backupCmds (w : SyncWorld) : List SyncCmd :=
  .versionedBackupCmd ::
    (if w.existingDurableData && w.backupCopied then [.pruneBackupsCmd] else [])

/-- Translation of `syncToR2` (sync.ts): credential check, mount, health
gate (unhealthy returns the reason as `skippedReason` before any further
command), versioned backup (its failure does not block the sync), then the
rsync mirror followed by a re-read of the durable marker; success holds
exactly when the trimmed re-read marker matches the date-like pattern.
The mirror exit code is never consulted.  Captured log text attached to
the failure `details` field is not modelled (`none` stands for it).
Returns the result together with the trace of issued commands. -/
def syncToR2 (w : SyncWorld) : SyncResult × List SyncCmd :=
  if !r2Configured w.creds then
    ({ success := false, error := some "R2 storage is not configured" }, [])
  else if !w.mountOk then
    ({ success := false, error := some "Failed to mount R2 storage" }, [.mountStorage])
  else
    let h := isSourceHealthy w.source
    if !h.healthy then
      ({ success := false
         error := some "Sync skipped: source data is not healthy"
         skippedReason := h.reason
         details := some "The local data appears to be a fresh/empty container. Refusing to overwrite potentially good R2 backup." },
       .mountStorage :: healthCmds w.source)
    else
      let trace := .mountStorage :: (healthCmds w.source ++ backupCmds w ++ [.mirrorCmd, .readMarkerCmd])
      match w.markerAfterSync with
      | some out =>
          let lastSync := strTrim out
          if dateLike lastSync then
            ({ success := true, lastSync := some lastSync }, trace)
          else
            ({ success := false, error := some "Sync failed" }, trace)
      | none => ({ success := false, error := some "Sync failed" }, trace)

/-- Number of versioned backups to keep (`MAX_VERSIONED_BACKUPS`). -/
def MAX_VERSIONED_BACKUPS : Nat := 5

/-- Effect of one `createVersionedBackup` run on the `backups/` namespace,
listed newest-first (the order `ls -t` prints): when existing durable data
is present, `backups/<ts>` is created as the newest entry and the prune
command `ls -t | tail -n +6 | xargs -r rm -rf` keeps only the five most
recent entries; with no existing data the namespace is unchanged. -/
def backupsAfterCreate (existingData : Bool) (ts : String) (backups : List String) : List String :=
  if existingData then (ts :: backups).take MAX_VERSIONED_BACKUPS else backups

/-- Backups namespace after a sequence of syncs, each finding existing
durable data and creating a versioned backup with the given timestamp. -/
def backupsAfterSyncs (initial : List String) (stamps : List String) : List String :=
  stamps.foldl (fun bs ts => backupsAfterCreate true ts bs) initial

/-- Steps of the mirror shell command of `syncToR2`, which is a single
`&&`-chain: rsync of the config tree, rsync of the skills tree, then
`date -Iseconds > /data/openclaw/.last-sync`. -/
inductive SyncStep
  | mirrorConfigStep
  | mirrorSkillsStep
  | writeMarkerStep
  deriving DecidableEq, Repr

/-- Paths each step of the mirror command writes to (all on the durable
volume; no step touches the local state directory). -/
def syncStepWrites : SyncStep → List String
  | .mirrorConfigStep => [R2_MOUNT_PATH ++ "/openclaw/"]
  | .mirrorSkillsStep => [R2_MOUNT_PATH ++ "/skills/"]
  | .writeMarkerStep => [R2_MOUNT_PATH ++ "/.last-sync"]

/-- The mirror command's steps in source order. -/
def syncCmdSteps : List SyncStep := [.mirrorConfigStep, .mirrorSkillsStep, .writeMarkerStep]

/-- Execution of an `&&`-chain: each step runs only when every earlier
step succeeded; the first failing step still runs, later ones do not. -/
def chainAnd (ok : SyncStep → Bool) : List SyncStep → List SyncStep
  | [] => []
  | s :: rest => if ok s then s :: chainAnd ok rest else [s]

/-- All paths written during one execution of the mirror command, given
which steps succeed. -/
def syncCmdWrites (ok : SyncStep → Bool) : List String :=
  ((chainAnd ok syncCmdSteps).map syncStepWrites).flatten

/-- Path of the local sync marker (`$CONFIG_DIR/.last-sync` in
start-openclaw.sh). -/
def localMarkerPath : String := "/root/.openclaw/.last-sync"

/-- Characters the backup-name sanitizer keeps, the complement of the
JavaScript character class `[^a-zA-Z0-9_-]`. -/
def allowedChar (c : Char) : Bool :=
  c.isAlphanum || c = '_' || c = '-'

/-- Backup-name sanitization in `restoreFromBackup`:
`backupName.replace(/[^a-zA-Z0-9_-]/g, '')` deletes every character
outside the allowed set, keeping the rest in order. -/
def sanitizeBackupName (name : String) : String :=
  ⟨name.data.filter allowedChar⟩

/-- Backup kind accepted by `restoreFromBackup`. -/
inductive BackupType
  | versioned
  | golden
  deriving DecidableEq, Repr

/-- Namespace directory selected per backup kind in `restoreFromBackup`. -/
def backupTypeDir : BackupType → String
  | .golden => "golden-backup"
  | .versioned => "backups"

/-- The kind's name as interpolated into the success details string. -/
def backupTypeText : BackupType → String
  | .golden => "golden"
  | .versioned => "versioned"

/-- Commands `restoreFromBackup` can issue: the mount, the existence
check `test -d "<path>" && echo "exists"`, and the copy of the backup
contents back over the live state directory. -/
inductive RestoreCmd
  | mountStorage
  | verifyExistsCmd (path : String)
  | copyRestoreCmd (path : String)
  deriving DecidableEq, Repr

/-- Modelled sandbox world consulted by `restoreFromBackup`: credentials,
the mount outcome, directory existence as reported by `test -d` on the
exact path string the code constructs (POSIX: a path with a trailing slash
names the directory itself), and whether the restore shell command echoed
`restored`. -/
structure RestoreWorld where
  creds : R2Credentials
  mountOk : Bool
  dirExists : String → Bool
  restoreCompleted : Bool

/-- Translation of `restoreFromBackup` (sync.ts): credential check, mount,
sanitization of the supplied name, construction of
`<mount>/<namespace>/<safeName>`, existence check (failing with a
not-found error and issuing no copy when the directory is absent), then
the restore copy; success holds when the copy echoed `restored`.
Captured log text attached to failure `details` is not modelled. -/
def restoreFromBackup (w : RestoreWorld) (backupType : BackupType) (backupName : String) :
    SyncResult × List RestoreCmd :=
  if !r2Configured w.creds then
    ({ success := false, error := some "R2 storage is not configured" }, [])
  else if !w.mountOk then
    ({ success := false, error := some "Failed to mount R2 storage" }, [.mountStorage])
  else
    let safeName := sanitizeBackupName backupName
    let backupPath := R2_MOUNT_PATH ++ "/" ++ backupTypeDir backupType ++ "/" ++ safeName
    if !w.dirExists backupPath then
      ({ success := false, error := some ("Backup not found: " ++ backupPath) },
       [.mountStorage, .verifyExistsCmd backupPath])
    else if w.restoreCompleted then
      ({ success := true
         details := some ("Restored from " ++ backupTypeText backupType ++ " backup: " ++ safeName) },
       [.mountStorage, .verifyExistsCmd backupPath, .copyRestoreCmd backupPath])
    else
      ({ success := false, error := some "Restore command did not complete" },
       [.mountStorage, .verifyExistsCmd backupPath, .copyRestoreCmd backupPath])

/-- Sample credentials with all three bindings present. -/
def sampleCreds : R2Credentials :=
  { r2AccessKeyId := some "key"
    r2SecretAccessKey := some "secret"
    cfAccountId := some "account" }

/-- Sample healthy source: config file present, identity document with a
heading marker and more than 100 bytes. -/
def sampleHealthySource : SourceState :=
  { hasOpenclawJson := true
    hasClawdbotJson := false
    identity := some "# Identity\nEva is a persistent assistant with a distinct voice, recurring rituals, and a memory of her collaborators and projects." }

/-- Sample world for a fully successful sync whose re-read marker is
`2026-01-27T12:00:00+00:00`. -/
def sampleHealthySyncWorld : SyncWorld :=
  { creds := sampleCreds
    mountOk := true
    source := sampleHealthySource
    existingDurableData := false
    backupCopied := false
    rsyncExitCode := some 0
    markerAfterSync := some "2026-01-27T12:00:00+00:00" }

/-- Sample restore world in which no backup directory exists at all. -/
def sampleMissingRestoreWorld : RestoreWorld :=
  { creds := sampleCreds
    mountOk := true
    dirExists := fun _ => false
    restoreCompleted := false }

/-- Sample restore world in which only the versioned namespace directory
(with its trailing slash) exists and the restore copy completes. -/
def sampleNamespaceRestoreWorld : RestoreWorld :=
  { creds := sampleCreds
    mountOk := true
    dirExists := fun p => p == "/data/openclaw/backups/"
    restoreCompleted := true }

/-- Digits-only parse of a character list into a natural number. -/
def parseNatDigits (l : List Char) : Option Nat :=
  if l.isEmpty then none
  else if l.all Char.isDigit then
    some (l.foldl (fun n c => n * 10 + (c.toNat - 48)) 0)
  else none

/-- Gregorian leap-year rule. -/
def isLeapYear (y : Nat) : Bool :=
  (y % 4 == 0 && y % 100 != 0) || y % 400 == 0

/-- Lengths of the twelve months. -/
def monthLengths (leap : Bool) : List Nat :=
  [31, if leap then 29 else 28, 31, 30, 31, 30, 31, 31, 30, 31, 30, 31]

/-- Days from 1970-01-01 to the start of year `y`. -/
def daysBeforeYear (y : Nat) : Nat :=
  (List.range (y - 1970)).foldl
    (fun acc i => acc + (if isLeapYear (1970 + i) then 366 else 365)) 0

/-- Days from the start of the year to the start of month `m`. -/
def daysBeforeMonth (leap : Bool) (m : Nat) : Nat :=
  ((monthLengths leap).take (m - 1)).foldl (· + ·) 0

/-- Zone suffix of an ISO-8601 timestamp: empty (taken as UTC, the
container's timezone), `Z`, or a `±HH:MM` offset, yielding the offset in
seconds. -/
def parseZone : List Char → Option Int
  | [] => some 0
  | ['Z'] => some 0
  | [sgn, h1, h2, c, m1, m2] =>
      if (sgn = '+' || sgn = '-') && c = ':' then
        match parseNatDigits [h1, h2], parseNatDigits [m1, m2] with
        | some h, some m =>
            if h ≤ 23 && m ≤ 59 then
              let off : Int := (h * 3600 + m * 60 : Nat)
              some (if sgn = '-' then -off else off)
            else none
        | _, _ => none
      else none
  | _ => none

/-- Modelled epoch-seconds parse of `date -d "$T" +%s` for the ISO-8601
date-times this system writes and compares (`date -Iseconds` output such
as `2026-01-27T12:00:00+00:00`, or the `Z`-suffixed form):
`YYYY-MM-DDTHH:MM:SS` plus an optional zone, for years from 1970 on.
Every other input is treated as malformed (`none`). -/
def parseIsoTimestamp (s : String) : Option Int :=
  let datePart := s.data.takeWhile (fun c => c ≠ 'T')
  match s.data.dropWhile (fun c => c ≠ 'T') with
  | 'T' :: timePart =>
      match datePart, timePart with
      | [y1, y2, y3, y4, c1, m1, m2, c2, d1, d2],
        h1 :: h2 :: c3 :: mi1 :: mi2 :: c4 :: s1 :: s2 :: zone =>
          if c1 = '-' && c2 = '-' && c3 = ':' && c4 = ':' then
            match parseNatDigits [y1, y2, y3, y4], parseNatDigits [m1, m2],
                parseNatDigits [d1, d2], parseNatDigits [h1, h2],
                parseNatDigits [mi1, mi2], parseNatDigits [s1, s2], parseZone zone with
            | some y, some mo, some d, some h, some mi, some sec, some off =>
                if 1970 ≤ y && 1 ≤ mo && mo ≤ 12 && 1 ≤ d &&
                    d ≤ (monthLengths (isLeapYear y)).getD (mo - 1) 0 &&
                    h ≤ 23 && mi ≤ 59 && sec ≤ 60 then
                  let days := daysBeforeYear y + daysBeforeMonth (isLeapYear y) mo + (d - 1)
                  some ((days * 86400 + h * 3600 + mi * 60 + sec : Nat) - off)
                else none
            | _, _, _, _, _, _, _ => none
          else none
      | _, _ => none
  | _ => none

/-- Epoch seconds with the script's malformed-input fallback:
`date -d "$T" +%s 2>/dev/null || echo "0"` yields 0 when the timestamp
does not parse. -/
def parseEpochOrZero (s : String) : Int :=
  (parseIsoTimestamp s).getD 0

/-- Translation of `should_restore_from_r2` (start-openclaw.sh): with no
durable marker file never restore; with a durable marker and no local
marker always restore; with both, restore exactly when the durable
marker's epoch is strictly greater than the local marker's
(`[ "$R2_EPOCH" -gt "$LOCAL_EPOCH" ]`). -/
def shouldRestoreFromR2 (r2Marker localMarker : Option String) : Bool :=
  match r2Marker with
  | none => false
  | some r2Time =>
      match localMarker with
      | none => true
      | some localTime => decide (parseEpochOrZero r2Time > parseEpochOrZero localTime)

/-- Lifecycle status of a sandbox process. -/
inductive ProcStatus
  | starting
  | running
  | completed
  | failed
  deriving DecidableEq, Repr

/-- A process as reported by the sandbox listing. -/
structure ProcRef where
  id : String
  command : String
  status : ProcStatus
  deriving DecidableEq, Repr

/-- Gateway invocation signatures: a direct CLI invocation
(`clawdbot gateway`) or the startup-script path (`start-clawdbot.sh`),
matched as command-line substrings. -/
def matchesGatewaySignature (cmd : String) : Bool :=
  strContains cmd "clawdbot gateway" || strContains cmd "start-clawdbot.sh"

/-- Non-terminal statuses: `starting` or `running`. -/
def isActiveStatus : ProcStatus → Bool
  | .starting => true
  | .running => true
  | .completed => false
  | .failed => false

/-- Filter used by process discovery: command matches a gateway signature
and the status is non-terminal. -/
def gatewayProcFilter (p : ProcRef) : Bool :=
  matchesGatewaySignature p.command && isActiveStatus p.status

/-- Modelled from the spec: the implementation module of
`findExistingClawdbotProcess` (the gateway process file) is absent from
the repository snapshot, which holds only its unit tests and callers.
Per spec §4.1 the function lists the sandbox's processes, filters to
those whose command line matches a gateway invocation signature and whose
status is `starting` or `running`, returns the first match in listing
order, and returns none when the listing itself fails; the input here is
the listing's outcome. -/
def findExistingClawdbotProcess : Except String (List ProcRef) → Option ProcRef
  | .error _ => none
  | .ok ps => ps.find? gatewayProcFilter

/-- Steps the restart route performs, in order: the process lookup, the
kill request (errors from which are caught and ignored), the fixed
2000 ms grace sleep, and the scheduling of the relaunch.  The relaunch is
passed to `executionCtx.waitUntil`, so it is scheduled without being
awaited and the handler's response does not wait for it. -/
inductive RestartStep
  | findStep
  | killStep (id : String)
  | sleepStep (ms : Nat)
  | scheduleRelaunchStep
  deriving DecidableEq, Repr

/-- JSON body returned by `POST /api/gateway/restart`. -/
structure RestartResponse where
  success : Bool
  message : String
  previousProcessId : Option String
  deriving DecidableEq, Repr

/-- Translation of the `POST /api/gateway/restart` handler: find the
existing gateway process; when one is found, kill it and sleep 2000 ms;
in either case schedule the relaunch asynchronously and respond
immediately with a message and `previousProcessId` reporting whether a
previous process was found and killed. -/
def restartGateway (existing : Option ProcRef) : RestartResponse × List RestartStep :=
  match existing with
  | some p =>
      ({ success := true
         message := "Gateway process killed, new instance starting..."
         previousProcessId := some p.id },
       [.findStep, .killStep p.id, .sleepStep 2000, .scheduleRelaunchStep])
  | none =>
      ({ success := true
         message := "No existing process found, starting new instance..."
         previousProcessId := none },
       [.findStep, .scheduleRelaunchStep])

/-- C6: the health gate classifies the identity document by existence, a
heading marker, and a strict 100-byte bound: a 0-byte document is `empty`,
a document with a heading marker and more than 100 bytes is `healthy`, a
non-empty document of at most 100 bytes is `minimal`; in general the
classification is `healthy` exactly when the document exists, has a
heading marker, and exceeds 100 bytes; and (given the config file) the
gate reports healthy exactly for classification `healthy`. -/
theorem healthGate_identity_classification :
    (∀ c : String, byteSize c = 0 → identityStatus (some c) = .empty)
  ∧ (∀ c : String, hasHeadingMarker c = true → 100 < byteSize c →
      identityStatus (some c) = .healthy)
  ∧ (∀ c : String, 0 < byteSize c → byteSize c ≤ 100 →
      identityStatus (some c) = .minimal)
  ∧ (∀ o : Option String, identityStatus o = .healthy ↔
      ∃ c, o = some c ∧ hasHeadingMarker c = true ∧ 100 < byteSize c)
  ∧ (∀ s : SourceState, (s.hasOpenclawJson || s.hasClawdbotJson) = true →
      ((isSourceHealthy s).healthy = true ↔ identityStatus s.identity = .healthy)) := by
  refine ⟨?_, ?_, ?_, ?_, ?_⟩
  · intro c h
    simp [identityStatus, h]
  · intro c h1 h2
    have hne : byteSize c ≠ 0 := by omega
    simp [identityStatus, hne, h1, h2]
  · intro c h0 h100
    have hne : byteSize c ≠ 0 := by omega
    have hnb : ¬ 100 < byteSize c := by omega
    simp [identityStatus, hne, hnb]
  · intro o
    cases o with
    | none => simp [identityStatus]
    | some c =>
        simp only [identityStatus]
        by_cases h0 : byteSize c = 0
        · simp [h0]
        · by_cases hh : hasHeadingMarker c = true
          · by_cases hb : 100 < byteSize c
            · simp [h0, hh, hb]
            · simp [h0, hh, hb]
          · simp [h0, hh]
  · intro s h
    simp [isSourceHealthy, h]
    cases hi : identityStatus s.identity <;> simp

set_option maxRecDepth 4000 in
/-- C6 witness: a 0-byte identity document is `empty`, a 150-byte document
with a leading heading marker is `healthy`, and a 50-byte document with a
heading marker is `minimal`. -/
theorem healthGate_identity_classification_witness :
    identityStatus (some "") = .empty
  ∧ identityStatus
      (some ("# Identity\nEva is a persistent assistant with a distinct voice, recurring rituals, and a memory of her collaborators and projects.")) = .healthy
  ∧ identityStatus (some "# Identity\nEva is a helpful assistant.") = .minimal := by
  refine ⟨healthGate_identity_classification.1 "" (by decide), ?_, ?_⟩
  · exact healthGate_identity_classification.2.1 _ (by decide) (by decide)
  · exact healthGate_identity_classification.2.2.1 _ (by decide) (by decide)

/-- C1: when the health gate classifies the source unhealthy because the
identity document is missing (config present, identity file absent),
`syncToR2` returns `success = false` with a `skippedReason` containing
"does not exist", and issues neither the versioned-backup command, nor
the prune, nor the rsync mirror: no write to the durable volume. -/
theorem syncToR2_skips_on_missing_identity
    (w : SyncWorld)
    (hcred : r2Configured w.creds = true)
    (hmount : w.mountOk = true)
    (hconfig : (w.source.hasOpenclawJson || w.source.hasClawdbotJson) = true)
    (hid : w.source.identity = none) :
    (syncToR2 w).1.success = false
  ∧ (∃ r, (syncToR2 w).1.skippedReason = some r ∧ strContains r "does not exist" = true)
  ∧ SyncCmd.versionedBackupCmd ∉ (syncToR2 w).2
  ∧ SyncCmd.pruneBackupsCmd ∉ (syncToR2 w).2
  ∧ SyncCmd.mirrorCmd ∉ (syncToR2 w).2 := by
  have hres : syncToR2 w =
      ({ success := false
         error := some "Sync skipped: source data is not healthy"
         skippedReason := some "IDENTITY.md does not exist - appears to be fresh container"
         details := some "The local data appears to be a fresh/empty container. Refusing to overwrite potentially good R2 backup." },
       [.mountStorage, .configCheck, .identityCheck]) := by
    simp [syncToR2, hcred, hmount, isSourceHealthy, hconfig, hid, identityStatus, healthCmds]
  rw [hres]
  exact ⟨rfl, ⟨_, rfl, by decide⟩, by decide, by decide, by decide⟩

/-- C1 witness: a concrete world with valid credentials, a successful
mount, the config file present and the identity document absent. -/
theorem syncToR2_skips_on_missing_identity_witness :
    (syncToR2
      { creds := { r2AccessKeyId := some "key", r2SecretAccessKey := some "secret", cfAccountId := some "account" }
        mountOk := true
        source := { hasOpenclawJson := true, hasClawdbotJson := false, identity := none }
        existingDurableData := false
        backupCopied := false
        rsyncExitCode := none
        markerAfterSync := none }).1.success = false := by
  exact (syncToR2_skips_on_missing_identity _ (by decide) rfl (by decide) rfl).1

/-- C3: past the credential, mount and health checks, the outcome of
`syncToR2` is decided only by re-reading the marker file: success holds
exactly when the trimmed re-read content matches the date-like pattern,
in which case `lastSync` is that content; otherwise the error is
"Sync failed"; and the result never depends on the mirror's exit code
(the `rsyncExitCode` field is immaterial). -/
theorem syncToR2_success_by_marker
    (w : SyncWorld)
    (hcred : r2Configured w.creds = true)
    (hmount : w.mountOk = true)
    (hhealthy : (isSourceHealthy w.source).healthy = true) :
    ((syncToR2 w).1.success = true ↔
      ∃ out, w.markerAfterSync = some out ∧ dateLike (strTrim out) = true)
  ∧ (∀ out, w.markerAfterSync = some out → dateLike (strTrim out) = true →
      (syncToR2 w).1.lastSync = some (strTrim out))
  ∧ ((syncToR2 w).1.success = false → (syncToR2 w).1.error = some "Sync failed")
  ∧ (∀ e : Option Int, syncToR2 { w with rsyncExitCode := e } = syncToR2 w) := by
  refine ⟨?_, ?_, ?_, ?_⟩
  · rcases hm : w.markerAfterSync with _ | out
    · simp [syncToR2, hcred, hmount, hhealthy, hm]
    · by_cases hd : dateLike (strTrim out) = true
      · simp [syncToR2, hcred, hmount, hhealthy, hm, hd]
      · simp [syncToR2, hcred, hmount, hhealthy, hm, hd]
  · intro out hm hd
    simp [syncToR2, hcred, hmount, hhealthy, hm, hd]
  · intro hfail
    rcases hm : w.markerAfterSync with _ | out
    · simp [syncToR2, hcred, hmount, hhealthy, hm]
    · by_cases hd : dateLike (strTrim out) = true
      · exfalso
        simp [syncToR2, hcred, hmount, hhealthy, hm, hd] at hfail
      · simp [syncToR2, hcred, hmount, hhealthy, hm, hd]
  · intro e
    cases w
    rfl

set_option maxRecDepth 4000 in
/-- C3 witness: with a healthy source and a marker that re-reads as
`2026-01-27T12:00:00+00:00`, the sync succeeds and reports that marker as
`lastSync`, while the mirror's reported exit code is irrelevant. -/
theorem syncToR2_success_by_marker_witness :
    (syncToR2 sampleHealthySyncWorld).1.success = true
  ∧ (syncToR2 sampleHealthySyncWorld).1.lastSync = some "2026-01-27T12:00:00+00:00"
  ∧ syncToR2 { sampleHealthySyncWorld with rsyncExitCode := some 1 } =
      syncToR2 sampleHealthySyncWorld := by
  have h := syncToR2_success_by_marker sampleHealthySyncWorld (by decide) rfl (by decide)
  refine ⟨h.1.mpr ⟨"2026-01-27T12:00:00+00:00", rfl, by decide⟩, ?_, h.2.2.2 (some 1)⟩
  have h2 := h.2.1 "2026-01-27T12:00:00+00:00" rfl (by decide)
  simpa using h2

/-- C4: any versioned-backup creation keeps the backups namespace at five
or fewer entries, and six successive syncs that each find existing
durable data leave exactly the five newest backups, the first (oldest)
timestamp having been evicted. -/
theorem versionedBackup_rotation :
    (∀ (e : Bool) (ts : String) (bs : List String),
      bs.length ≤ MAX_VERSIONED_BACKUPS →
      (backupsAfterCreate e ts bs).length ≤ MAX_VERSIONED_BACKUPS)
  ∧ (∀ t1 t2 t3 t4 t5 t6 : String,
      backupsAfterSyncs [] [t1, t2, t3, t4, t5, t6] = [t6, t5, t4, t3, t2])
  ∧ (∀ t1 t2 t3 t4 t5 t6 : String, t1 ∉ [t2, t3, t4, t5, t6] →
      (backupsAfterSyncs [] [t1, t2, t3, t4, t5, t6]).length = MAX_VERSIONED_BACKUPS
      ∧ t1 ∉ backupsAfterSyncs [] [t1, t2, t3, t4, t5, t6]) := by
  have hfold : ∀ t1 t2 t3 t4 t5 t6 : String,
      backupsAfterSyncs [] [t1, t2, t3, t4, t5, t6] = [t6, t5, t4, t3, t2] := by
    intro t1 t2 t3 t4 t5 t6
    rfl
  refine ⟨?_, hfold, ?_⟩
  · intro e ts bs h
    cases e
    · simpa [backupsAfterCreate] using h
    · rw [backupsAfterCreate]
      simp only [if_true, List.length_take]
      exact Nat.min_le_left _ _
  · intro t1 t2 t3 t4 t5 t6 h
    rw [hfold]
    refine ⟨rfl, ?_⟩
    simp only [List.mem_cons, List.not_mem_nil, or_false] at h ⊢
    tauto

/-- C4 witness: six concrete syncs from an empty backups namespace leave
the five newest entries and evict the oldest. -/
theorem versionedBackup_rotation_witness :
    backupsAfterSyncs [] ["t1", "t2", "t3", "t4", "t5", "t6"] = ["t6", "t5", "t4", "t3", "t2"]
  ∧ "t1" ∉ backupsAfterSyncs [] ["t1", "t2", "t3", "t4", "t5", "t6"]
  ∧ (backupsAfterCreate true "t7" ["t6", "t5", "t4", "t3", "t2"]).length ≤ MAX_VERSIONED_BACKUPS := by
  exact ⟨versionedBackup_rotation.2.1 _ _ _ _ _ _,
    (versionedBackup_rotation.2.2 _ _ _ _ _ _ (by decide)).2,
    versionedBackup_rotation.1 true "t7" _ (by decide)⟩

/-- C5: `restoreFromBackup` keeps only characters from `[A-Za-z0-9_-]` of
the supplied name before building any path (so `../../etc` contributes
only `etc`), and when the directory named by the sanitized name is absent
it fails with a not-found error and issues no copy command. -/
theorem restoreFromBackup_sanitize_and_notfound :
    sanitizeBackupName "../../etc" = "etc"
  ∧ (∀ name : String, ∀ c ∈ (sanitizeBackupName name).data, allowedChar c = true)
  ∧ (∀ (w : RestoreWorld) (bt : BackupType) (name : String),
      r2Configured w.creds = true → w.mountOk = true →
      w.dirExists (R2_MOUNT_PATH ++ "/" ++ backupTypeDir bt ++ "/" ++ sanitizeBackupName name) = false →
      (restoreFromBackup w bt name).1.success = false
      ∧ (restoreFromBackup w bt name).1.error =
          some ("Backup not found: " ++
            (R2_MOUNT_PATH ++ "/" ++ backupTypeDir bt ++ "/" ++ sanitizeBackupName name))
      ∧ ∀ p, RestoreCmd.copyRestoreCmd p ∉ (restoreFromBackup w bt name).2) := by
  refine ⟨by decide, ?_, ?_⟩
  · intro name c hc
    exact (List.mem_filter.mp hc).2
  · intro w bt name hcred hmount hdir
    simp [restoreFromBackup, hcred, hmount, hdir]

/-- C5 witness: restoring `../../etc` from a world where no backup
directory exists fails with the not-found error naming the sanitized
path, and issues no copy. -/
theorem restoreFromBackup_sanitize_and_notfound_witness :
    (restoreFromBackup sampleMissingRestoreWorld .versioned "../../etc").1.error =
      some "Backup not found: /data/openclaw/backups/etc"
  ∧ (restoreFromBackup sampleMissingRestoreWorld .versioned "../../etc").1.success = false := by
  have h := restoreFromBackup_sanitize_and_notfound.2.2
    sampleMissingRestoreWorld .versioned "../../etc" (by decide) rfl rfl
  refine ⟨?_, h.1⟩
  rw [h.2.1]
  decide

/-- C10: a backup name whose characters are all outside `[A-Za-z0-9_-]`
sanitizes to the empty string, so the constructed backup path is the
namespace directory itself (with a trailing slash); the existence check
then passes whenever that namespace directory exists and the restore copy
proceeds against the namespace root rather than failing as not-found. -/
theorem restoreFromBackup_empty_name_namespace_root
    (w : RestoreWorld) (bt : BackupType) (name : String)
    (hall : ∀ c ∈ name.data, allowedChar c = false)
    (hcred : r2Configured w.creds = true)
    (hmount : w.mountOk = true)
    (hns : w.dirExists (R2_MOUNT_PATH ++ "/" ++ backupTypeDir bt ++ "/") = true) :
    sanitizeBackupName name = ""
  ∧ (restoreFromBackup w bt name).2 =
      [.mountStorage,
       .verifyExistsCmd (R2_MOUNT_PATH ++ "/" ++ backupTypeDir bt ++ "/"),
       .copyRestoreCmd (R2_MOUNT_PATH ++ "/" ++ backupTypeDir bt ++ "/")]
  ∧ (restoreFromBackup w bt name).1.success = w.restoreCompleted
  ∧ ((restoreFromBackup w bt name).1.error = none
      ∨ (restoreFromBackup w bt name).1.error = some "Restore command did not complete") := by
  have hnil : name.data.filter allowedChar = [] := by
    rw [List.filter_eq_nil_iff]
    intro a ha
    simp [hall a ha]
  have hsan : sanitizeBackupName name = "" := by
    unfold sanitizeBackupName
    rw [hnil]
  have hpath : R2_MOUNT_PATH ++ "/" ++ backupTypeDir bt ++ "/" ++ sanitizeBackupName name =
      R2_MOUNT_PATH ++ "/" ++ backupTypeDir bt ++ "/" := by
    rw [hsan]
    exact String.append_empty _
  refine ⟨hsan, ?_, ?_, ?_⟩ <;>
    cases hrc : w.restoreCompleted <;>
      simp [restoreFromBackup, hcred, hmount, hpath, hns, hrc]

/-- C10 witness: the name `../..` sanitizes to the empty string, and with
the versioned namespace directory present the restore proceeds and
succeeds against the namespace root. -/
theorem restoreFromBackup_empty_name_namespace_root_witness :
    sanitizeBackupName "../.." = ""
  ∧ (restoreFromBackup sampleNamespaceRestoreWorld .versioned "../..").1.success = true := by
  have h := restoreFromBackup_empty_name_namespace_root
    sampleNamespaceRestoreWorld .versioned "../.." (by decide) (by decide) rfl (by decide)
  exact ⟨h.1, h.2.2.1⟩

/-- C2: the startup restore decision never restores without a durable
marker, restores unconditionally when only the durable marker exists,
and with both markers restores exactly when the durable epoch is
strictly greater than the local epoch; a timestamp the parser rejects
contributes epoch zero. -/
theorem startupRestoreDecision_spec :
    (∀ l : Option String, shouldRestoreFromR2 none l = false)
  ∧ (∀ d : String, shouldRestoreFromR2 (some d) none = true)
  ∧ (∀ d l : String, shouldRestoreFromR2 (some d) (some l) =
      decide (parseEpochOrZero d > parseEpochOrZero l))
  ∧ (∀ s : String, parseIsoTimestamp s = none → parseEpochOrZero s = 0) := by
  refine ⟨fun l => rfl, fun d => rfl, fun d l => rfl, ?_⟩
  intro s h
  simp [parseEpochOrZero, h]

/-- C2 witness: durable `2026-02-01T00:00:00Z` against local
`2026-01-01T00:00:00Z` restores, the reversed pair does not, a missing
durable marker never restores, and a malformed timestamp parses to
epoch zero. -/
theorem startupRestoreDecision_spec_witness :
    shouldRestoreFromR2 (some "2026-02-01T00:00:00Z") (some "2026-01-01T00:00:00Z") = true
  ∧ shouldRestoreFromR2 (some "2026-01-01T00:00:00Z") (some "2026-02-01T00:00:00Z") = false
  ∧ shouldRestoreFromR2 none (some "2026-01-01T00:00:00Z") = false
  ∧ parseEpochOrZero "not-a-timestamp" = 0 := by
  refine ⟨?_, ?_, startupRestoreDecision_spec.1 _,
    startupRestoreDecision_spec.2.2.2 _ (by decide)⟩
  · rw [startupRestoreDecision_spec.2.2.1]
    decide
  · rw [startupRestoreDecision_spec.2.2.1]
    decide

/-- C7: process discovery returns none on a failed listing; any process
it returns matches a gateway invocation signature and has status
`starting` or `running` (never `completed` or `failed`); and when a match
exists it returns the first matching process in listing order. -/
theorem findExisting_filter_spec :
    (∀ e : String, findExistingClawdbotProcess (.error e) = none)
  ∧ (∀ (ps : List ProcRef) (p : ProcRef),
      findExistingClawdbotProcess (.ok ps) = some p →
      matchesGatewaySignature p.command = true
      ∧ (p.status = .starting ∨ p.status = .running)
      ∧ p.status ≠ .completed ∧ p.status ≠ .failed)
  ∧ (∀ (l1 : List ProcRef) (p : ProcRef) (l2 : List ProcRef),
      (∀ q ∈ l1, gatewayProcFilter q = false) → gatewayProcFilter p = true →
      findExistingClawdbotProcess (.ok (l1 ++ p :: l2)) = some p) := by
  refine ⟨fun e => rfl, ?_, ?_⟩
  · intro ps p hfind
    have hp : gatewayProcFilter p = true := List.find?_some hfind
    have hsplit : matchesGatewaySignature p.command = true ∧ isActiveStatus p.status = true := by
      simpa [gatewayProcFilter] using hp
    refine ⟨hsplit.1, ?_, ?_, ?_⟩ <;> cases hst : p.status <;>
      simp [isActiveStatus, hst] at hsplit ⊢
  · intro l1 p l2 hneg hp
    induction l1 with
    | nil => simp [findExistingClawdbotProcess, List.find?, hp]
    | cons q rest ih =>
        have hq : gatewayProcFilter q = false := hneg q (by simp)
        have hrest : ∀ r ∈ rest, gatewayProcFilter r = false := by
          intro r hr
          exact hneg r (by simp [hr])
        simpa [findExistingClawdbotProcess, List.find?, hq] using ih hrest

/-- C7 witness: in a listing holding a completed CLI process followed by
a running gateway process, discovery returns the gateway process, and a
failed listing yields none. -/
theorem findExisting_filter_spec_witness :
    findExistingClawdbotProcess (.ok
      [{ id := "cli-1", command := "clawdbot devices list --json", status := .completed },
       { id := "gateway-1", command := "clawdbot gateway --port 18789", status := .running }]) =
      some { id := "gateway-1", command := "clawdbot gateway --port 18789", status := .running }
  ∧ findExistingClawdbotProcess (.error "Network error") = none := by
  refine ⟨?_, findExisting_filter_spec.1 "Network error"⟩
  exact findExisting_filter_spec.2.2
    [{ id := "cli-1", command := "clawdbot devices list --json", status := .completed }]
    { id := "gateway-1", command := "clawdbot gateway --port 18789", status := .running }
    [] (by decide) (by decide)

set_option maxRecDepth 4000 in
/-- C8 counterexample: a fully successful sync (healthy source, marker
re-read as a valid timestamp, every step of the mirror command
succeeding) writes the durable marker but never writes the local marker
path: syncing does not store the timestamp "both locally and on the
durable volume". -/
theorem syncMarker_not_stored_locally_counterexample :
    (syncToR2 sampleHealthySyncWorld).1.success = true
  ∧ (R2_MOUNT_PATH ++ "/.last-sync") ∈ syncCmdWrites (fun _ => true)
  ∧ localMarkerPath ∉ syncCmdWrites (fun _ => true) := by
  refine ⟨?_, by decide, by decide⟩
  decide

/-- C8 (amended): after every successful mirrored sync the sync-marker
timestamp is stored on the durable volume, and the durable marker is
written only after both mirror copies have completed; the mirror command
never writes the local marker path (the local copy is written only by
the restore path of the startup script). -/
theorem syncMarker_durable_ordering
    (ok : SyncStep → Bool)
    (hmem : SyncStep.writeMarkerStep ∈ chainAnd ok syncCmdSteps) :
    ok .mirrorConfigStep = true ∧ ok .mirrorSkillsStep = true
  ∧ chainAnd ok syncCmdSteps = [.mirrorConfigStep, .mirrorSkillsStep, .writeMarkerStep]
  ∧ (∀ st : SyncStep, localMarkerPath ∉ syncStepWrites st)
  ∧ syncStepWrites .writeMarkerStep = [R2_MOUNT_PATH ++ "/.last-sync"] := by
  have hlocal : ∀ st : SyncStep, localMarkerPath ∉ syncStepWrites st := by
    intro st
    cases st <;> decide
  cases h1 : ok .mirrorConfigStep <;> cases h2 : ok .mirrorSkillsStep <;>
    cases h3 : ok .writeMarkerStep <;>
      simp [chainAnd, syncCmdSteps, h1, h2, h3] at hmem ⊢ <;>
        exact ⟨hlocal, rfl⟩

/-- C8 witness: with every step of the mirror command succeeding, the
durable marker is written after both mirror copies. -/
theorem syncMarker_durable_ordering_witness :
    chainAnd (fun _ => true) syncCmdSteps =
      [.mirrorConfigStep, .mirrorSkillsStep, .writeMarkerStep]
  ∧ localMarkerPath ∉ syncStepWrites .writeMarkerStep := by
  have h := syncMarker_durable_ordering (fun _ => true) (by decide)
  exact ⟨h.2.2.1, h.2.2.2.1 .writeMarkerStep⟩

/-- C9: the restart handler finds the existing process, kills it, sleeps
the 2000 ms grace period, then schedules the relaunch without awaiting
it, and its immediate response reports whether a previous process was
found and killed (via the message and `previousProcessId`). -/
theorem restartGateway_behavior :
    (∀ p : ProcRef,
      restartGateway (some p) =
        ({ success := true
           message := "Gateway process killed, new instance starting..."
           previousProcessId := some p.id },
         [.findStep, .killStep p.id, .sleepStep 2000, .scheduleRelaunchStep]))
  ∧ restartGateway none =
      ({ success := true
         message := "No existing process found, starting new instance..."
         previousProcessId := none },
       [.findStep, .scheduleRelaunchStep])
  ∧ (∀ o : Option ProcRef, (restartGateway o).1.previousProcessId = o.map ProcRef.id)
  ∧ (∀ o : Option ProcRef, RestartStep.scheduleRelaunchStep ∈ (restartGateway o).2) := by
  refine ⟨fun p => rfl, rfl, ?_, ?_⟩
  · intro o
    cases o <;> rfl
  · intro o
    cases o <;> simp [restartGateway]

end EvaAgent
